import Mathlib

/-!
Verification of the incremental data-synchronization engine in
`active-projects/ads_sync/ads_sync_cli.py`.

Shallow embedding conventions:
* Calendar dates are embedded as day numbers (`Int`), via the standard
  civil-calendar conversion `daysFromCivil` (1970-01-01 is day 0).  Python
  `date + timedelta(days = k)` is day-number addition, `(a - b).days` is
  day-number subtraction, `date.today()` / `datetime.now(tz).date()` become an
  explicit `today` parameter.
* pandas `DataFrame`s of campaign rows become `List CampaignRow`;
  `pd.concat` is `List.append`; `drop_duplicates(subset = pk, keep = "last")`
  is `keep_last` below (keep the last occurrence of every key, preserving the
  relative order of the kept rows).
* Monetary/metric floats are embedded as `Rat` (the claims under study do not
  depend on floating-point rounding).
* Fallible I/O steps (config load, API client creation, fetches, writes) are
  inputs of an environment record, each an `Except PyError _` / `Bool`;
  the persisted filesystem artifacts (state JSON, master CSV, error records)
  form a `World` record that the orchestrator functions transform.
-/

/-- Day number of a civil date (days since 1970-01-01, the Howard Hinnant
`days_from_civil` algorithm, specialized to years ≥ 1 so all intermediate
arithmetic is on `Nat`).  This embeds Python `datetime.date` values. -/
def daysFromCivil (y m d : Nat) : Int :=
  let y2 : Nat := if m ≤ 2 then y - 1 else y
  let era : Nat := y2 / 400
  let yoe : Nat := y2 % 400
  let mp : Nat := if m ≤ 2 then m + 9 else m - 3
  let doy : Nat := (153 * mp + 2) / 5 + d - 1
  let doe : Nat := yoe * 365 + yoe / 4 - yoe / 100 + doy
  (era * 146097 + doe : Int) - 719468

/-- Loop body of `chunk_date_ranges` (the `while current < end` loop).
`fuel` is an upper bound on the number of iterations: since
`chunk_days ≥ 0`, `current` grows by at least one day per iteration, so
`(end - start).toNat` iterations always suffice and the fuel never cuts the
loop short. -/
def chunk_go (chunk_days : Nat) (end_ : Int) : Nat → Int → List (Int × Int)
  | 0, _ => []
  | fuel + 1, current =>
    if current < end_ then
      let chunk_end := min (current + (chunk_days : Int)) end_
      (current, chunk_end) :: chunk_go chunk_days end_ fuel (chunk_end + 1)
    else []

/-- Embedding of `chunk_date_ranges(start, end, chunk_days)`
(ads_sync_cli.py lines 276–297): split a date range into chunks,
`chunk_end = min(current + timedelta(days=chunk_days), end)`, then
`current = chunk_end + timedelta(days=1)`. -/
def chunk_date_ranges (start end_ : Int) (chunk_days : Nat) : List (Int × Int) :=
  chunk_go chunk_days end_ (end_ - start).toNat start

/-- Embedding of `calculate_append_window(watermark_date, overlap_days,
max_window_days, client_tz)` (lines 300–331).  The client-timezone clock is
abstracted into the `today` parameter (`datetime.now(tz).date()`). -/
def calculate_append_window (watermark_date : Option Int)
    (overlap_days max_window_days : Int) (today : Int) : Int × Int :=
  let yesterday := today - 1
  let start :=
    match watermark_date with
    | some w => w - overlap_days
    | none => yesterday - max_window_days
  let start2 := if yesterday - start > max_window_days then yesterday - max_window_days
    else start
  (start2, yesterday)

/-- Backfill window of `handle_init` (lines 711–712):
`end_date = datetime.now().date()` (today, server-local) and
`start_date = end_date - timedelta(days=365)`. -/
def init_backfill_window (today_server : Int) : Int × Int :=
  (today_server - 365, today_server)

/-- Embedding of pandas `drop_duplicates(subset, keep="last")` on a list of
rows with key function `key`: a row is kept iff no later row has the same
key; the relative order of kept rows is preserved. -/
def keep_last {α κ : Type} [DecidableEq κ] (key : α → κ) : List α → List α
  | [] => []
  | a :: rs =>
    if ∃ s ∈ rs, key s = key a then keep_last key rs
    else a :: keep_last key rs

/-- Embedding of the Python exceptions that reach the orchestrator
`except Exception` handlers. -/
inductive PyError where
  | fileNotFound : String → PyError
  | googleAdsError : String → PyError
  | oserror : String → PyError
  | jsonDecodeError : String → PyError
  | unboundLocal : String → PyError
  | timeoutError : String → PyError
deriving DecidableEq

/-- Python exception class name (`type(exception).__name__`). -/
def pyErrorType : PyError → String
  | PyError.fileNotFound _ => ("FileNotFoundError")
  | PyError.googleAdsError _ => ("GoogleAdsException")
  | PyError.oserror _ => ("OSError")
  | PyError.jsonDecodeError _ => ("JSONDecodeError")
  | PyError.unboundLocal _ => ("UnboundLocalError")
  | PyError.timeoutError _ => ("TimeoutError")

/-- Python exception message (`str(exception)`). -/
def pyErrorMsg : PyError → String
  | PyError.fileNotFound m => m
  | PyError.googleAdsError m => m
  | PyError.oserror m => m
  | PyError.jsonDecodeError m => m
  | PyError.unboundLocal m => m
  | PyError.timeoutError m => m

/-- One campaign-performance row of the master CSV (columns produced by
`fetch_campaign_data`, lines 653–669, plus the columns added by
`enrich_campaign_data`, lines 425–469; absent until enrichment runs). -/
structure CampaignRow where
  data_source : String
  pull_date : String
  date : String
  campaign_id : Int
  campaign_name : String
  campaign_status : String
  impressions : Int
  clicks : Int
  cost : Rat
  conversions : Rat
  conversions_value : Rat
  ctr : Option Rat
  avg_cpc : Option Rat
  cpa : Option Rat
  conv_rate : Option Rat
  currency_code : Option String
  schema_version : Option Nat
deriving DecidableEq

/-- Primary key of `deduplicate_campaigns` (line 394):
`subset=["date", "campaign_id", "data_source"]`. -/
def campaignKey (r : CampaignRow) : String × Int × String :=
  (r.date, r.campaign_id, r.data_source)

/-- Embedding of `deduplicate_campaigns(df)` (lines 387–403):
`df.drop_duplicates(subset=["date", "campaign_id", "data_source"],
keep="last")`. -/
def deduplicate_campaigns (df : List CampaignRow) : List CampaignRow :=
  keep_last campaignKey df

/-- The `removed = original_count - len(df_dedup)` count computed (and only
logged) by `deduplicate_campaigns`. -/
def dedup_removed (df : List CampaignRow) : Nat :=
  df.length - (deduplicate_campaigns df).length

/-- Merging as performed by `handle_append` (lines 848–852):
`pd.concat([df_existing, df_new])` followed by `deduplicate_campaigns`. -/
def merge_campaigns (df_existing df_new : List CampaignRow) : List CampaignRow :=
  deduplicate_campaigns (df_existing ++ df_new)

/-- Embedding of `enrich_campaign_data(df, currency_code)` (lines 425–469):
recompute ctr, avg_cpc, cpa, conv_rate (None on zero denominator) and stamp
currency_code and schema_version. -/
def enrich_campaign_data (df : List CampaignRow) (currency : String) :
    List CampaignRow :=
  df.map (fun r =>
    { r with
      ctr := if r.impressions > 0 then some ((r.clicks : Rat) / (r.impressions : Rat)) else none
      avg_cpc := if r.clicks > 0 then some (r.cost / (r.clicks : Rat)) else none
      cpa := if r.conversions > 0 then some (r.cost / r.conversions) else none
      conv_rate := if r.clicks > 0 then some (r.conversions / (r.clicks : Rat)) else none
      currency_code := some currency
      schema_version := some 1 })

/-- The `data_quality` sub-record of the client state (lines 118–123; the
dynamically added `last_append` key from line 877 is `Option`). -/
structure DataQuality where
  last_validation : Option Nat
  total_rows : Nat
  duplicate_rows_removed : Nat
  date_gaps : List (Int × Int)
  last_append : Option Nat
deriving DecidableEq

/-- The per-client state JSON record (lines 109–124).  Watermarks are day
numbers; timestamps are abstract `Nat` clock readings. -/
structure ClientState where
  slug : String
  created_at : Nat
  timezone : Option String
  currency_code : Option String
  google_ads_watermark : Option Int
  google_lsa_watermark : Option Int
  search_terms_watermark : Option Int
  schema_version : Nat
  data_quality : DataQuality
  last_updated : Option Nat
deriving DecidableEq

/-- The fresh state built by `load_client_state` when no state file exists
(lines 108–126). -/
def initial_client_state (slug : String) (now : Nat) : ClientState :=
  { slug := slug
    created_at := now
    timezone := none
    currency_code := none
    google_ads_watermark := none
    google_lsa_watermark := none
    search_terms_watermark := none
    schema_version := 1
    data_quality :=
      { last_validation := none
        total_rows := 0
        duplicate_rows_removed := 0
        date_gaps := []
        last_append := none }
    last_updated := none }

/-- Embedding of `load_client_state(slug)` (lines 98–126): return the stored
state when the state file exists, else the fresh initial state. -/
def load_client_state (slug : String) (now : Nat) (stored : Option ClientState) :
    ClientState :=
  stored.getD (initial_client_state slug now)

/-- Client YAML config as consumed by the handlers; `Option` fields model the
`config.get(..., default)` lookups. -/
structure SyncConfig where
  client_id : String
  timezone : Option String
  currency_code : Option String
  overlap_days : Option Int
  max_window_days : Option Int

/-- Context dictionary lookup `context.get(key)`, rendered into the f-string
as the string "None" when the key is absent. -/
def ctx_get (context : List (String × String)) (k : String) : String :=
  (context.lookup k).getD ("None")

/-- Recovery command built by `save_error_recovery_info` (lines 547–553).
Note the `--from` / `--to` flags in the `append` branch. -/
def build_recovery_command (command slug : String)
    (context : List (String × String)) : String :=
  if command = ("append") then
    ("python ads_sync_cli.py repair ") ++ slug ++ (" --from ")
      ++ ctx_get context ("start_date") ++ (" --to ") ++ ctx_get context ("end_date")
  else if command = ("init") then
    ("python ads_sync_cli.py init ") ++ slug
  else
    ("python ads_sync_cli.py ") ++ command ++ (" ") ++ slug

/-- One persisted error file (lines 555–563). -/
structure ErrorRecord where
  timestamp : Nat
  command : String
  slug : String
  exception_type : String
  exception_message : String
  context : List (String × String)
  recovery_command : String
deriving DecidableEq

/-- Embedding of `save_error_recovery_info(slug, command, exception, context)`
(lines 527–569): the JSON record it writes.  The caller appends it to the
error records of the world. -/
def save_error_recovery_info (slug command : String) (e : PyError)
    (context : List (String × String)) (now : Nat) : ErrorRecord :=
  { timestamp := now
    command := command
    slug := slug
    exception_type := pyErrorType e
    exception_message := pyErrorMsg e
    context := context
    recovery_command := build_recovery_command command slug context }

/-- The per-client persisted filesystem artifacts the orchestrators mutate:
the state JSON, the master CSV, and the accumulated error records. -/
structure World where
  stateFile : Option ClientState
  masterFile : Option (List CampaignRow)
  errorRecords : List ErrorRecord
deriving DecidableEq

/-- Append an error record to the world (the `save_error_recovery_info` call
in an `except` handler); the state and master files are untouched. -/
def record_failure (w : World) (slug command : String) (e : PyError)
    (context : List (String × String)) (now : Nat) : World :=
  { w with errorRecords :=
      w.errorRecords ++ [save_error_recovery_info slug command e context now] }

/-- Embedding of the acquisition loop of `client_lock` (lines 156–216).
State per iteration: elapsed seconds `t` since `start_time` and the lock file
(`some pid` when present, owner pid recorded inside).  One iteration:
`os.open(..., O_CREAT | O_EXCL)` succeeds iff no lock file exists (acquired,
returning the elapsed time); otherwise, if `elapsed > timeout`, the stale
check runs (`os.kill(pid, 0)`): a dead owner gets the lock file removed and
the loop continues immediately at the same elapsed time, a live owner means
`TimeoutError`; if `elapsed ≤ timeout` the loop sleeps 2 seconds and retries.
`fuel` bounds the iteration count; `none` means the fuel ran out before the
loop finished (never the case for the fuel used in the theorems). -/
inductive LockResult where
  | acquired : Nat → LockResult
  | timedOut : LockResult
deriving DecidableEq

/-- See the comment above: the `while True` acquisition loop of
`client_lock`, with `LockResult.acquired t` meaning the exclusive create
succeeded at elapsed time `t` and `LockResult.timedOut` the `TimeoutError`
raise. -/
def client_lock_acquire (alive : Nat → Bool) (timeout : Nat) :
    Nat → Nat → Option Nat → Option LockResult
  | 0, _, _ => none
  | fuel + 1, t, lock =>
    match lock with
    | none => some (LockResult.acquired t)
    | some pid =>
      if t > timeout then
        if alive pid then some LockResult.timedOut
        else client_lock_acquire alive timeout fuel t none
      else client_lock_acquire alive timeout fuel (t + 2) (some pid)

/-- Whether a token is a long option (argparse: it starts with "--"). -/
def is_long_flag (tok : String) : Bool :=
  match tok.data with
  | '-' :: '-' :: _ => true
  | _ => false

/-- Token-level embedding of the `repair` sub-parser registered in `main`
(lines 1100–1107): one positional `slug`, required options `--start` and
`--end`; any other `--...` option is rejected (argparse "unrecognized
arguments"), as is a second positional or a missing required option. -/
def repair_parse_go : List String → Option String → Option String →
    Option String → Option (String × String × String)
  | [], some sl, some s, some e => some (sl, s, e)
  | [], _, _, _ => none
  | tok :: rest, sl, s, e =>
    if tok = ("--start") then
      match rest with
      | v :: rest2 => repair_parse_go rest2 sl (some v) e
      | [] => none
    else if tok = ("--end") then
      match rest with
      | v :: rest2 => repair_parse_go rest2 sl s (some v)
      | [] => none
    else if is_long_flag tok then none
    else
      match sl with
      | none => repair_parse_go rest (some tok) s e
      | some _ => none

/-- Arguments accepted by `python ads_sync_cli.py repair ...`: parse the
tokens after the `repair` subcommand. -/
def repair_subparser (tokens : List String) : Option (String × String × String) :=
  repair_parse_go tokens none none none

/-- Environment of one `handle_append` run: outcome of each fallible step and
the clock readings.  `today` is `datetime.now(client_tz).date()` as a day
number, `now` an abstract timestamp for records. -/
structure AppendEnv where
  config : Except PyError SyncConfig
  stateLoadOk : Bool
  adsClient : Except PyError Unit
  fetch : Except PyError (List CampaignRow)
  writeOk : Bool
  saveOk : Bool
  today : Int
  now : Nat

/-- Embedding of `handle_append` (lines 785–887).  Mirrors the step order of
the source: load config, load state, compute the append window, create the
API client, fetch, require the master CSV, concat + deduplicate + enrich,
(non-blocking validation), atomic write, then watermark update and state
save as the final step.  The `except` handler builds its context dictionary
from the locals `start_date` / `end_date`; when the failure happens before
they are assigned, that reference raises `UnboundLocalError`, so no error
record is written and the surfaced error is the `UnboundLocalError`. -/
def handle_append (env : AppendEnv) (slug : String) (w : World) :
    Except PyError Unit × World :=
  match env.config with
  | Except.error _ => (Except.error (PyError.unboundLocal ("start_date")), w)
  | Except.ok config =>
    if env.stateLoadOk = false then
      (Except.error (PyError.unboundLocal ("start_date")), w)
    else
      let state := load_client_state slug env.now w.stateFile
      let overlap_days := config.overlap_days.getD 3
      let max_window := config.max_window_days.getD 30
      let window := calculate_append_window state.google_ads_watermark
        overlap_days max_window env.today
      let start_date := window.1
      let end_date := window.2
      let context := [(("start_date"), toString start_date),
                      (("end_date"), toString end_date)]
      match env.adsClient with
      | Except.error e =>
        (Except.error e, record_failure w slug ("append") e context env.now)
      | Except.ok _ =>
        match env.fetch with
        | Except.error e =>
          (Except.error e, record_failure w slug ("append") e context env.now)
        | Except.ok df_new =>
          match w.masterFile with
          | none =>
            let e := PyError.fileNotFound (("Master CSV not found for ") ++ slug)
            (Except.error e, record_failure w slug ("append") e context env.now)
          | some df_existing =>
            let df_combined := df_existing ++ df_new
            let df_master := deduplicate_campaigns df_combined
            let df_master2 := enrich_campaign_data df_master
              (config.currency_code.getD ("USD"))
            if env.writeOk = false then
              let e := PyError.oserror ("atomic write failed")
              (Except.error e, record_failure w slug ("append") e context env.now)
            else
              let w2 := { w with masterFile := some df_master2 }
              let state2 :=
                { state with
                  google_ads_watermark := some end_date
                  data_quality :=
                    { state.data_quality with
                      last_validation := some env.now
                      last_append := some env.now } }
              if env.saveOk = false then
                let e := PyError.oserror ("state save failed")
                (Except.error e, record_failure w2 slug ("append") e context env.now)
              else
                (Except.ok (),
                 { w2 with stateFile := some { state2 with last_updated := some env.now } })

/-- Environment of one `handle_init` run (`fetchChunk` is the per-chunk
outcome of `fetch_campaign_data`; `today` is `datetime.now().date()`,
server-local, as a day number). -/
structure InitEnv where
  config : Except PyError SyncConfig
  stateLoadOk : Bool
  adsClient : Except PyError Unit
  fetchChunk : Int × Int → Except PyError (List CampaignRow)
  writeOk : Bool
  saveOk : Bool
  today : Int
  now : Nat

/-- The chunk-fetch loop of `handle_init` (lines 727–738): fetch every chunk
in order, stopping at the first error; `pd.concat` of the chunk frames is
the concatenation of the fetched row lists. -/
def fetch_all (f : Int × Int → Except PyError (List CampaignRow)) :
    List (Int × Int) → Except PyError (List CampaignRow)
  | [] => Except.ok []
  | c :: cs =>
    match f c with
    | Except.error e => Except.error e
    | Except.ok rows =>
      match fetch_all f cs with
      | Except.error e => Except.error e
      | Except.ok rest => Except.ok (rows ++ rest)

/-- Embedding of `handle_init` (lines 685–782): load config and state,
compute the backfill window (`init_backfill_window`), create the API client,
chunk the window, fetch all chunks, and — when any chunk frames were
collected, i.e. the chunk list is nonempty — deduplicate, enrich, validate
(non-blocking) and atomically write the master CSV; finally set the
google_ads watermark to the backfill end date, copy timezone/currency from
config, and save the state.  Its `except` handler always writes an error
record with context `phase = initial_backfill` before re-raising. -/
def handle_init (env : InitEnv) (slug : String) (w : World) :
    Except PyError Unit × World :=
  let ctx := [(("phase"), ("initial_backfill"))]
  match env.config with
  | Except.error e => (Except.error e, record_failure w slug ("init") e ctx env.now)
  | Except.ok config =>
    if env.stateLoadOk = false then
      let e := PyError.jsonDecodeError ("state file corrupt")
      (Except.error e, record_failure w slug ("init") e ctx env.now)
    else
      let state := load_client_state slug env.now w.stateFile
      let window := init_backfill_window env.today
      let start_date := window.1
      let end_date := window.2
      match env.adsClient with
      | Except.error e => (Except.error e, record_failure w slug ("init") e ctx env.now)
      | Except.ok _ =>
        let chunks := chunk_date_ranges start_date end_date 90
        match fetch_all env.fetchChunk chunks with
        | Except.error e => (Except.error e, record_failure w slug ("init") e ctx env.now)
        | Except.ok rows =>
          let writeStep : Except PyError World :=
            if chunks.isEmpty then Except.ok w
            else
              let df_master := deduplicate_campaigns rows
              let df_master2 := enrich_campaign_data df_master
                (config.currency_code.getD ("USD"))
              if env.writeOk = false then Except.error (PyError.oserror ("atomic write failed"))
              else Except.ok { w with masterFile := some df_master2 }
          match writeStep with
          | Except.error e => (Except.error e, record_failure w slug ("init") e ctx env.now)
          | Except.ok w2 =>
            let state2 :=
              { state with
                google_ads_watermark := some end_date
                timezone := some (config.timezone.getD ("America/Chicago"))
                currency_code := some (config.currency_code.getD ("USD")) }
            if env.saveOk = false then
              let e := PyError.oserror ("state save failed")
              (Except.error e, record_failure w2 slug ("init") e ctx env.now)
            else
              (Except.ok (),
               { w2 with stateFile := some { state2 with last_updated := some env.now } })

instance {ε α : Type} [DecidableEq ε] [DecidableEq α] : DecidableEq (Except ε α) :=
  fun a b =>
    match a, b with
    | Except.error x, Except.error y =>
      if h : x = y then Decidable.isTrue (by rw [h])
      else Decidable.isFalse (fun hc => by cases hc; exact h rfl)
    | Except.ok x, Except.ok y =>
      if h : x = y then Decidable.isTrue (by rw [h])
      else Decidable.isFalse (fun hc => by cases hc; exact h rfl)
    | Except.error _, Except.ok _ => Decidable.isFalse (fun hc => Except.noConfusion hc)
    | Except.ok _, Except.error _ => Decidable.isFalse (fun hc => Except.noConfusion hc)

/-- A concrete client config, as loaded from a client YAML file. -/
def exConfig : SyncConfig :=
  { client_id := ("413-902-2884")
    timezone := some ("America/Chicago")
    currency_code := some ("USD")
    overlap_days := some 3
    max_window_days := some 30 }

/-- A concrete fetched campaign row. -/
def exRowA : CampaignRow :=
  { data_source := ("google_ads")
    pull_date := ("2025-09-19T10:00:00+00:00")
    date := ("2025-09-18")
    campaign_id := 101
    campaign_name := ("Brand")
    campaign_status := ("ENABLED")
    impressions := 100
    clicks := 5
    cost := 10
    conversions := 0
    conversions_value := 0
    ctr := none
    avg_cpc := none
    cpa := none
    conv_rate := none
    currency_code := none
    schema_version := none }

/-- A re-fetch of the same (date, campaign_id, data_source) key as `exRowA`,
pulled a day later with corrected metrics: a duplicate under the primary
key, with different row contents. -/
def exRowB : CampaignRow :=
  { exRowA with pull_date := ("2025-09-20T10:00:00+00:00"), clicks := 6 }

/-- Day number of 2025-09-21, the server-local and client-local "today" of
the init-then-append scenario. -/
def c2Day : Int := daysFromCivil 2025 9 21

/-- Environment of a fully successful `init` run on 2025-09-21 (every chunk
fetch returns an empty frame). -/
def c2InitEnv : InitEnv :=
  { config := Except.ok exConfig
    stateLoadOk := true
    adsClient := Except.ok ()
    fetchChunk := fun _ => Except.ok []
    writeOk := true
    saveOk := true
    today := c2Day
    now := 1000 }

/-- The world before any operation: no state file, no master CSV, no error
records. -/
def c2World0 : World := { stateFile := none, masterFile := none, errorRecords := [] }

/-- The persisted world after the successful `init` run of the scenario. -/
def c2World1 : World := (handle_init c2InitEnv ("priority-roofing") c2World0).2

/-- Environment of a fully successful `append` run later the same day
(2025-09-21). -/
def c2AppendEnv : AppendEnv :=
  { config := Except.ok exConfig
    stateLoadOk := true
    adsClient := Except.ok ()
    fetch := Except.ok []
    writeOk := true
    saveOk := true
    today := c2Day
    now := 2000 }

/-- Result of running that `append` after the `init`. -/
def c2Run2 : Except PyError Unit × World :=
  handle_append c2AppendEnv ("priority-roofing") c2World1

/-- A previously initialized client state with watermark 2025-09-18. -/
def c9State : ClientState :=
  { initial_client_state ("priority-roofing") 500 with
      google_ads_watermark := some (daysFromCivil 2025 9 18) }

/-- A world holding that state and a one-row master CSV. -/
def c9World : World :=
  { stateFile := some c9State, masterFile := some [exRowA], errorRecords := [] }

/-- Environment of a successful `append` on 2025-09-20 whose fetch returns a
corrected duplicate (`exRowB`) of the existing row `exRowA`. -/
def c9Env : AppendEnv :=
  { config := Except.ok exConfig
    stateLoadOk := true
    adsClient := Except.ok ()
    fetch := Except.ok [exRowB]
    writeOk := true
    saveOk := true
    today := daysFromCivil 2025 9 20
    now := 3000 }

/-- Result of that duplicate-dropping `append` run. -/
def c9Run : Except PyError Unit × World :=
  handle_append c9Env ("priority-roofing") c9World

/-- Environment of an `append` run whose very first step — loading the
client config file — fails (the config file is missing), before the date
window is computed. -/
def c3Env : AppendEnv :=
  { config := Except.error (PyError.fileNotFound ("Client config not found"))
    stateLoadOk := true
    adsClient := Except.ok ()
    fetch := Except.ok []
    writeOk := true
    saveOk := true
    today := daysFromCivil 2025 9 20
    now := 4000 }

/-- Result of the config-load-failure `append` run. -/
def c3Run : Except PyError Unit × World :=
  handle_append c3Env ("priority-roofing") c9World

/-- Environment identical to `c3Env` except the failure happens at the fetch
step, after the window is computed. -/
def c3FetchFailEnv : AppendEnv :=
  { c3Env with
    config := Except.ok exConfig
    fetch := Except.error (PyError.googleAdsError ("quota exceeded")) }

/-- Result of the fetch-failure `append` run. -/
def c3FetchFailRun : Except PyError Unit × World :=
  handle_append c3FetchFailEnv ("priority-roofing") c9World

/-- Shell word-splitting of a command string on spaces (how the recovery
command string turns into an argv when a human runs it). -/
def split_spaces_go : List Char → List Char → List String
  | [], acc => [String.mk acc.reverse]
  | c :: cs, acc =>
    if c = ' ' then String.mk acc.reverse :: split_spaces_go cs []
    else split_spaces_go cs (c :: acc)

/-- See `split_spaces_go`: split a command line into its words. -/
def split_spaces (s : String) : List String := split_spaces_go s.data []

/-- The recovery command recorded for a failed `append` over the range
2025-09-01 .. 2025-09-30 of client priority-roofing. -/
def c10_recovery : String :=
  build_recovery_command ("append") ("priority-roofing")
    [(("start_date"), ("2025-09-01")), (("end_date"), ("2025-09-30"))]

theorem keep_last_subset {α κ : Type} [DecidableEq κ] (key : α → κ) :
    ∀ (l : List α) (r : α), r ∈ keep_last key l → r ∈ l := by
  intro l
  induction l with
  | nil => intro r hr; simp [keep_last] at hr
  | cons a rs ih =>
    intro r hr
    by_cases h : ∃ s ∈ rs, key s = key a
    · simp only [keep_last, if_pos h] at hr
      exact List.mem_cons_of_mem a (ih r hr)
    · simp only [keep_last, if_neg h, List.mem_cons] at hr
      rcases hr with h1 | h2
      · exact h1 ▸ List.mem_cons_self a rs
      · exact List.mem_cons_of_mem a (ih r h2)

theorem keep_last_keys {α κ : Type} [DecidableEq κ] (key : α → κ) :
    ∀ (l : List α) (k : κ), k ∈ (keep_last key l).map key ↔ k ∈ l.map key := by
  intro l
  induction l with
  | nil => intro k; simp [keep_last]
  | cons a rs ih =>
    intro k
    by_cases h : ∃ s ∈ rs, key s = key a
    · simp only [keep_last, if_pos h, List.map_cons, List.mem_cons]
      rw [ih]
      constructor
      · intro hk; exact Or.inr hk
      · intro hk
        rcases hk with h1 | h2
        · rcases h with ⟨s, hs, hks⟩
          subst h1
          rw [← hks]
          exact List.mem_map_of_mem key hs
        · exact h2
    · simp only [keep_last, if_neg h, List.map_cons, List.mem_cons]
      rw [ih]

theorem keep_last_nodup {α κ : Type} [DecidableEq κ] (key : α → κ) :
    ∀ (l : List α), ((keep_last key l).map key).Nodup := by
  intro l
  induction l with
  | nil => simp [keep_last]
  | cons a rs ih =>
    by_cases h : ∃ s ∈ rs, key s = key a
    · simpa only [keep_last, if_pos h] using ih
    · simp only [keep_last, if_neg h, List.map_cons, List.nodup_cons]
      refine ⟨?_, ih⟩
      intro hmem
      rw [keep_last_keys] at hmem
      rcases List.mem_map.mp hmem with ⟨s, hs, hks⟩
      exact h ⟨s, hs, hks⟩

theorem keep_last_last_wins {α κ : Type} [DecidableEq κ] (key : α → κ) :
    ∀ (A B : List α) (r : α), r ∈ keep_last key (A ++ B) →
      key r ∈ B.map key → r ∈ B := by
  intro A
  induction A with
  | nil =>
    intro B r hr _
    simpa using keep_last_subset key B r hr
  | cons a A' ih =>
    intro B r hr hk
    rw [List.cons_append] at hr
    simp only [keep_last] at hr
    split at hr
    · exact ih B r hr hk
    · rename_i h
      rcases List.mem_cons.mp hr with h1 | h2
      · exfalso
        subst h1
        rcases List.mem_map.mp hk with ⟨s, hs, hks⟩
        exact h ⟨s, List.mem_append_right A' hs, hks⟩
      · exact ih B r h2 hk

/-- Case analysis of `handle_append`: either the run fails and the persisted
state file is untouched, or it succeeds and the persisted state has
watermark = computed window end (yesterday, client-local) with the
duplicate_rows_removed counter carried over unchanged from the loaded
state. -/
theorem handle_append_cases (env : AppendEnv) (slug : String) (w : World) :
    ((∃ e, (handle_append env slug w).1 = Except.error e)
      ∧ (handle_append env slug w).2.stateFile = w.stateFile)
    ∨ ((handle_append env slug w).1 = Except.ok ()
      ∧ ∃ st, (handle_append env slug w).2.stateFile = some st
        ∧ st.google_ads_watermark = some (env.today - 1)
        ∧ st.data_quality.duplicate_rows_removed
            = (load_client_state slug env.now w.stateFile).data_quality.duplicate_rows_removed) := by
  simp only [handle_append]
  repeat' split
  all_goals first
    | exact Or.inl ⟨⟨_, rfl⟩, rfl⟩
    | exact Or.inr ⟨rfl, _, rfl, rfl, rfl⟩

/-- Case analysis of `handle_init`: either the run fails and the persisted
state file is untouched, or it succeeds and the persisted state has
watermark = backfill end date (today, server-local) with the
duplicate_rows_removed counter carried over unchanged. -/
theorem handle_init_cases (env : InitEnv) (slug : String) (w : World) :
    ((∃ e, (handle_init env slug w).1 = Except.error e)
      ∧ (handle_init env slug w).2.stateFile = w.stateFile)
    ∨ ((handle_init env slug w).1 = Except.ok ()
      ∧ ∃ st, (handle_init env slug w).2.stateFile = some st
        ∧ st.google_ads_watermark = some env.today
        ∧ st.data_quality.duplicate_rows_removed
            = (load_client_state slug env.now w.stateFile).data_quality.duplicate_rows_removed) := by
  simp only [handle_init]
  repeat' split
  all_goals first
    | exact Or.inl ⟨⟨_, rfl⟩, rfl⟩
    | exact Or.inr ⟨rfl, _, rfl, rfl, rfl⟩
    | (refine Or.inl ⟨⟨_, rfl⟩, ?_⟩
       rename_i heq hsv
       split at heq
       · injection heq with h2
         rw [← h2]
         rfl
       · split at heq
         · injection heq
         · injection heq with h2
           rw [← h2]
           rfl)

/-- Acquisition-loop lemma for a stale lock (dead owner pid): starting at
any elapsed time `t ≤ timeout + 2` with enough fuel, the loop acquires the
lock at some time strictly after the timeout and at most one backoff
interval past it. -/
theorem client_lock_stale_go (alive : Nat → Bool) (timeout pid : Nat)
    (h : alive pid = false) :
    ∀ (fuel t : Nat), t ≤ timeout + 2 → timeout + 4 - t ≤ fuel →
      ∃ tq, client_lock_acquire alive timeout fuel t (some pid)
          = some (LockResult.acquired tq)
        ∧ timeout < tq ∧ tq ≤ timeout + 2 := by
  intro fuel
  induction fuel with
  | zero => intro t ht hf; omega
  | succ n ih =>
    intro t ht hf
    by_cases hgt : t > timeout
    · refine ⟨t, ?_, hgt, ht⟩
      cases n with
      | zero => omega
      | succ m => simp [client_lock_acquire, hgt, h]
    · obtain ⟨tq, heq, h1, h2⟩ := ih (t + 2) (by omega) (by omega)
      refine ⟨tq, ?_, h1, h2⟩
      simp only [client_lock_acquire, if_neg hgt]
      exact heq

/-- C1: merging an existing row set A with a newly fetched row set B —
concatenating A then B and deduplicating on the primary key
(date, campaign_id, data_source) with keep=last — yields a result whose
keys are pairwise distinct, in which every input key survives exactly once,
whose rows all come from the input, and in which any key present in B
survives with a row of B (so for a key present in both A and B the
surviving row comes from B, not from A). -/
theorem c1_merge_dedup_last_wins (A B : List CampaignRow) :
    ((merge_campaigns A B).map campaignKey).Nodup
    ∧ (∀ k, k ∈ (A ++ B).map campaignKey ↔ k ∈ (merge_campaigns A B).map campaignKey)
    ∧ (∀ r ∈ merge_campaigns A B, r ∈ A ++ B)
    ∧ (∀ r ∈ merge_campaigns A B, campaignKey r ∈ B.map campaignKey → r ∈ B) := by
  refine ⟨keep_last_nodup campaignKey (A ++ B), ?_, ?_, ?_⟩
  · intro k
    exact (keep_last_keys campaignKey (A ++ B) k).symm
  · intro r hr
    exact keep_last_subset campaignKey (A ++ B) r hr
  · intro r hr hk
    exact keep_last_last_wins campaignKey A B r hr hk

/-- C1 witness: a concrete merge of one existing row and one corrected
re-fetch of the same key — the deduplicated keys are distinct and the
surviving row for the shared key is the newly fetched row. -/
theorem c1_merge_dedup_last_wins_witness :
    ((merge_campaigns [exRowA] [exRowB]).map campaignKey).Nodup
    ∧ exRowB ∈ [exRowB] :=
  ⟨(c1_merge_dedup_last_wins [exRowA] [exRowB]).1,
   (c1_merge_dedup_last_wins [exRowA] [exRowB]).2.2.2 exRowB (by decide) (by decide)⟩

/-- C2: the watermark moves backward within the code's own operations.  A
fully successful `init` on 2025-09-21 persists watermark 2025-09-21 (the
backfill end date is `datetime.now().date()`, i.e. today); a fully
successful `append` later the same day recomputes end = yesterday
(2025-09-20) and persists it, so the stored watermark decreases by one day
— contradicting the claim that the watermark never moves backward under
any operation except repair. -/
theorem c2_init_then_append_moves_watermark_backward :
    c2World1.stateFile.map ClientState.google_ads_watermark = some (some c2Day)
    ∧ c2Run2.1 = Except.ok ()
    ∧ c2Run2.2.stateFile.map ClientState.google_ads_watermark = some (some (c2Day - 1))
    ∧ c2Day - 1 < c2Day := by decide

/-- C3: an `append` run whose config load fails — before the date window is
computed — surfaces `UnboundLocalError` (the except handler references the
unassigned local start_date) and persists nothing: the world, and in
particular its list of error records, is unchanged, so no ErrorRecord is
written; by contrast the same run failing at the fetch step (window already
computed) does persist exactly one error record. -/
theorem c3_early_append_failure_writes_no_error_record :
    c3Run.1 = Except.error (PyError.unboundLocal ("start_date"))
    ∧ c3Run.2 = c9World
    ∧ c3Run.2.errorRecords = []
    ∧ c3FetchFailRun.2.errorRecords.length = 1 := by decide

/-- C4: the chunking of `chunk_date_ranges` evaluated at concrete inputs.
For start 2024-01-01, end 2024-04-01 and chunkDays 90 the result is the
single chunk (2024-01-01, 2024-03-31), whose upper bound is strictly below
the requested end — the end date is covered by no chunk, a gap.  For the
single-day range start = end = 2024-01-01 the result is empty, again not
covering [start, end].  And on the spec example (2024-01-01 .. 2024-04-15,
90) the code returns chunks split at 2024-03-31 / 2024-04-01, not the
claimed 2024-03-30 / 2024-03-31 (the two split points differ by one day). -/
theorem c4_chunking_gap_and_example_mismatch :
    chunk_date_ranges (daysFromCivil 2024 1 1) (daysFromCivil 2024 4 1) 90
      = [(daysFromCivil 2024 1 1, daysFromCivil 2024 3 31)]
    ∧ daysFromCivil 2024 3 31 < daysFromCivil 2024 4 1
    ∧ chunk_date_ranges (daysFromCivil 2024 1 1) (daysFromCivil 2024 1 1) 90 = []
    ∧ chunk_date_ranges (daysFromCivil 2024 1 1) (daysFromCivil 2024 4 15) 90
      = [(daysFromCivil 2024 1 1, daysFromCivil 2024 3 31),
         (daysFromCivil 2024 4 1, daysFromCivil 2024 4 15)]
    ∧ daysFromCivil 2024 3 30 + 1 = daysFromCivil 2024 3 31 := by decide

/-- C5: `calculate_append_window` returns end = yesterday (client-local
today minus one); when a watermark exists, start is watermark − overlapDays
clamped to yesterday − maxWindowDays whenever the span would exceed
maxWindowDays (i.e. the max of the two), and with no watermark start is
yesterday − maxWindowDays; on the concrete example (watermark 2025-09-10,
overlap 3, max 30, today 2025-09-20) it returns (2025-09-07, 2025-09-19). -/
theorem c5_append_window :
    (∀ (w o m today : Int), calculate_append_window (some w) o m today
        = (max (w - o) (today - 1 - m), today - 1))
    ∧ (∀ (o m today : Int), calculate_append_window none o m today
        = (today - 1 - m, today - 1))
    ∧ calculate_append_window (some (daysFromCivil 2025 9 10)) 3 30 (daysFromCivil 2025 9 20)
        = (daysFromCivil 2025 9 7, daysFromCivil 2025 9 19) := by
  refine ⟨?_, ?_, by decide⟩
  · intro w o m today
    simp only [calculate_append_window, Prod.mk.injEq]
    split
    · rename_i hc
      exact ⟨(max_eq_right (by omega : w - o ≤ today - 1 - m)).symm, trivial⟩
    · rename_i hc
      exact ⟨(max_eq_left (by omega : today - 1 - m ≤ w - o)).symm, trivial⟩
  · intro o m today
    simp only [calculate_append_window]
    split <;> rfl

/-- C6: the backfill window of `handle_init` evaluated with server-local
today = 2025-09-20: the end date equals today itself (2025-09-20), which is
strictly after yesterday (2025-09-19, what the claim requires), and the
start date is exactly 365 days back (2024-09-20), not a configurable
historyYears of calendar years. -/
theorem c6_backfill_window_ends_today_not_yesterday :
    init_backfill_window (daysFromCivil 2025 9 20)
      = (daysFromCivil 2024 9 20, daysFromCivil 2025 9 20)
    ∧ daysFromCivil 2025 9 19 < (init_backfill_window (daysFromCivil 2025 9 20)).2
    ∧ (init_backfill_window (daysFromCivil 2025 9 20)).2 - daysFromCivil 2025 9 19 = 1 := by decide

/-- C7: for every environment (i.e. however any step fails), a failed
`append` or `init` leaves the persisted client state byte-identical to what
it was before the operation — the watermark update is the last step — and a
successful `append` persists exactly the computed end date (yesterday,
client-local) as the new watermark. -/
theorem c7_state_untouched_unless_success (env : AppendEnv) (ienv : InitEnv)
    (slug : String) (w : World) :
    (∀ e, (handle_append env slug w).1 = Except.error e →
      (handle_append env slug w).2.stateFile = w.stateFile)
    ∧ (∀ e, (handle_init ienv slug w).1 = Except.error e →
      (handle_init ienv slug w).2.stateFile = w.stateFile)
    ∧ ((handle_append env slug w).1 = Except.ok () →
      (handle_append env slug w).2.stateFile.map ClientState.google_ads_watermark
        = some (some (env.today - 1))) := by
  refine ⟨?_, ?_, ?_⟩
  · intro e he
    rcases handle_append_cases env slug w with ⟨_, hsf⟩ | ⟨hok, _⟩
    · exact hsf
    · rw [hok] at he
      exact absurd he (by simp)
  · intro e he
    rcases handle_init_cases ienv slug w with ⟨_, hsf⟩ | ⟨hok, _⟩
    · exact hsf
    · rw [hok] at he
      exact absurd he (by simp)
  · intro hok
    rcases handle_append_cases env slug w with ⟨⟨e, he⟩, _⟩ | ⟨_, st, hst, hwm, _⟩
    · rw [hok] at he
      exact absurd he (by simp)
    · rw [hst]
      simp [hwm]

/-- C7 witness: the config-load-failure append run fails and leaves the
state file of the world unchanged. -/
theorem c7_state_untouched_unless_success_witness :
    (handle_append c3Env ("priority-roofing") c9World).2.stateFile = c9World.stateFile :=
  (c7_state_untouched_unless_success c3Env c2InitEnv ("priority-roofing") c9World).1
    (PyError.unboundLocal ("start_date")) (by decide)

/-- C8 counterexample: with a stale lock (dead owner pid 4242) present from
the start and the default timeout of 300 s, the acquisition loop succeeds
only at elapsed time 302 s — after the full timeout, far beyond the one
2-second retry interval the claim allows (2 < 302 and 300 < 302). -/
theorem c8_stale_lock_not_reclaimed_within_retry :
    client_lock_acquire (fun _ => false) 300 400 0 (some 4242)
      = some (LockResult.acquired 302)
    ∧ 2 < 302 ∧ 300 < 302 := by decide

/-- C8 amended: the stale check runs only on loop iterations where the
elapsed time already exceeds the timeout; a lock whose recorded owner is
dead is then removed and acquisition succeeds on the immediate retry — so
acquisition does succeed, but only strictly after the full timeout has
elapsed (and within one 2-second backoff past it), never within the first
retry interval. -/
theorem c8_stale_lock_reclaimed_only_after_timeout (alive : Nat → Bool)
    (timeout pid : Nat) (h : alive pid = false) :
    ∃ t, client_lock_acquire alive timeout (timeout + 4) 0 (some pid)
        = some (LockResult.acquired t)
      ∧ timeout < t ∧ t ≤ timeout + 2 :=
  client_lock_stale_go alive timeout pid h (timeout + 4) 0 (by omega) (by omega)

/-- C8 witness: the amended statement instantiated at the default timeout
300 and a dead pid. -/
theorem c8_stale_lock_reclaimed_only_after_timeout_witness :
    ∃ t, client_lock_acquire (fun _ => false) 300 (300 + 4) 0 (some 4242)
        = some (LockResult.acquired t)
      ∧ 300 < t ∧ t ≤ 300 + 2 :=
  c8_stale_lock_reclaimed_only_after_timeout (fun _ => false) 300 4242 rfl

/-- C9 counterexample: an `append` whose merge drops exactly one duplicate
row completes successfully, yet the persisted duplicate_rows_removed
counter still reads 0 — not the prior value plus the one dropped row
(0 < 0 + 1). -/
theorem c9_duplicate_counter_not_incremented :
    dedup_removed ([exRowA] ++ [exRowB]) = 1
    ∧ c9Run.1 = Except.ok ()
    ∧ c9Run.2.stateFile.map (fun s => s.data_quality.duplicate_rows_removed) = some 0
    ∧ 0 < 0 + 1 := by decide

/-- C9 amended: `deduplicate_campaigns` only computes (and logs) the number
of dropped rows; no operation ever adds it to the state — after any
`append` or `init`, the persisted duplicate_rows_removed counter either is
untouched (failure) or equals exactly the counter of the loaded state
(success), never incremented. -/
theorem c9_duplicate_counter_never_updated (env : AppendEnv) (ienv : InitEnv)
    (slug : String) (w : World) :
    ((handle_append env slug w).2.stateFile.map
        (fun s => s.data_quality.duplicate_rows_removed)
      = w.stateFile.map (fun s => s.data_quality.duplicate_rows_removed)
     ∨ (handle_append env slug w).2.stateFile.map
        (fun s => s.data_quality.duplicate_rows_removed)
      = some ((load_client_state slug env.now w.stateFile).data_quality.duplicate_rows_removed))
    ∧ ((handle_init ienv slug w).2.stateFile.map
        (fun s => s.data_quality.duplicate_rows_removed)
      = w.stateFile.map (fun s => s.data_quality.duplicate_rows_removed)
     ∨ (handle_init ienv slug w).2.stateFile.map
        (fun s => s.data_quality.duplicate_rows_removed)
      = some ((load_client_state slug ienv.now w.stateFile).data_quality.duplicate_rows_removed)) := by
  constructor
  · rcases handle_append_cases env slug w with ⟨_, hsf⟩ | ⟨_, st, hst, _, hdq⟩
    · left
      rw [hsf]
    · right
      rw [hst]
      simp [hdq]
  · rcases handle_init_cases ienv slug w with ⟨_, hsf⟩ | ⟨_, st, hst, _, hdq⟩
    · left
      rw [hsf]
    · right
      rw [hst]
      simp [hdq]

/-- C10: the recovery command recorded for a failed append uses the flags
--from and --to, but the repair sub-parser of the CLI accepts only --start
and --end: word-splitting the recorded command and feeding its arguments to
the repair sub-parser is rejected (None), while the same invocation written
with the flags --start and --end parses fine — the recorded command is not accepted as
written. -/
theorem c10_recovery_command_rejected_by_cli :
    c10_recovery
      = ("python ads_sync_cli.py repair priority-roofing --from 2025-09-01 --to 2025-09-30")
    ∧ split_spaces c10_recovery
      = [("python"), ("ads_sync_cli.py"), ("repair"), ("priority-roofing"),
         ("--from"), ("2025-09-01"), ("--to"), ("2025-09-30")]
    ∧ repair_subparser ((split_spaces c10_recovery).drop 3) = none
    ∧ repair_subparser [("priority-roofing"), ("--start"), ("2025-09-01"), ("--end"), ("2025-09-30")]
      = some (("priority-roofing"), ("2025-09-01"), ("2025-09-30")) := by decide
